import Mathlib

/-!
Verification of the telegram-mcp core against its specification.

The development shallowly embeds the two source files that hold the real
logic:

- telegram_client.py : the TelegramUserClient wrapper (start,
  ensure_connected, get_chats, get_messages, send_message, disconnect);
- main.py : the authenticate flow and the call_tool dispatch layer with
  its limit clamping.

The external Telethon client is modelled as a Provider structure whose
fields describe the outcomes of the remote calls (authorization check,
code dispatch, sign-in, message history, send outcome).  Every embedded
operation returns, besides its result and the updated client state, the
list of remote calls it performed, so that claims of the form "no remote
call is made" become statements about that trace.
-/

namespace TelegramMCP

/-- Python truthiness of an optional string argument: None and the empty
string are falsy, every other string is truthy. -/
def truthy : Option String → Bool
  | none => false
  | some s => !s.isEmpty

/-- Python expression x or given an optional string: None becomes the
empty string, any string is kept (the empty string maps to itself). -/
def orEmpty : Option String → String
  | none => ""
  | some s => s

/-- The five fields of the Telethon me object that the code projects. -/
structure User where
  id : Int
  first_name : Option String
  last_name : Option String
  username : Option String
  phone : Option String
  deriving Repr, DecidableEq

/-- A message sender as seen by the isinstance check in get_messages:
either a resolvable User or some other entity (channel, chat). -/
inductive Sender
  | user (u : User)
  | other
  deriving Repr, DecidableEq

/-- Provider-side message object, holding exactly the attributes the code
reads.  text is optional (None in Python); reply_to_msg_id collapses the
pair of attributes reply_to and reply_to_msg_id (the latter is None
exactly when the former is); media holds the media type name when the
message has media. -/
structure PMessage where
  id : Int
  text : Option String
  date : String
  from_user_id : Option Int
  sender : Option Sender
  reply_to_msg_id : Option Int
  media : Option String
  deriving Repr, DecidableEq

/-- Provider-side dialog object with the attributes get_chats reads. -/
structure Dialog where
  id : Int
  name : String
  is_user : Bool
  is_group : Bool
  unread_count : Int
  message : Option PMessage
  deriving Repr, DecidableEq

/-- The last_message record embedded in a chat record by get_chats. -/
structure LastMessage where
  id : Int
  text : String
  date : String
  from_id : Option Int
  deriving Repr, DecidableEq

/-- The chat record returned by get_chats. -/
structure ChatInfo where
  id : Int
  name : String
  type : String
  unread_count : Int
  last_message : Option LastMessage
  deriving Repr, DecidableEq

/-- The media sub-record of a message record. -/
structure MediaInfo where
  type : String
  has_media : Bool
  deriving Repr, DecidableEq

/-- The message record returned by get_messages.  from_username is only
present when the sender has a truthy username, hence optional. -/
structure MsgDict where
  id : Int
  text : String
  date : String
  from_id : Option Int
  from_name : Option String
  from_username : Option String
  reply_to : Option Int
  media : Option MediaInfo
  deriving Repr, DecidableEq

/-- The record returned by send_message.  The text field is taken from
the provider message without normalization, hence optional. -/
structure SendResult where
  id : Int
  text : Option String
  date : String
  chat_id : Int
  deriving Repr, DecidableEq

/-- Outcome of the send_code_request remote call, covering the exception
classes main.py catches around it. -/
inductive SendCodeOutcome
  | ok
  | apiIdInvalid
  | phoneInvalid
  | floodWait (seconds : Nat)
  deriving Repr, DecidableEq

/-- Outcome of sign_in with phone and code, covering the exception
classes the code handles. -/
inductive SignInOutcome
  | ok
  | passwordNeeded
  | codeInvalid
  | codeExpired
  | floodWait (seconds : Nat)
  deriving Repr, DecidableEq

/-- Outcome of the second-factor sign_in with a password. -/
inductive PasswordOutcome
  | ok
  | passwordInvalid
  deriving Repr, DecidableEq

/-- Trace entry: one remote call against the Telegram provider. -/
inductive RemoteCall
  | connect
  | is_user_authorized
  | get_me
  | send_code_request (phone : String)
  | sign_in (phone code : String)
  | sign_in_password
  | iter_dialogs (limit : Int)
  | iter_messages (chat_id limit offset : Int)
  | send_message (chat_id : Int) (text : String) (reply_to : Option Int)
  | disconnect
  deriving Repr, DecidableEq

/-- Model of the external Telethon client: each field gives the outcome
of the corresponding remote call in the current environment. -/
structure Provider where
  is_user_authorized : Bool
  me : User
  session_save : String
  dialogs : List Dialog
  history : Int → List PMessage
  send_code_request : String → SendCodeOutcome
  sign_in : String → String → SignInOutcome
  sign_in_password : String → PasswordOutcome
  send_outcome : Int → String → Option Int → Except String PMessage

/-- State of a TelegramUserClient.  session_string, connected and
is_authenticated mirror the Python attributes (self.session_string, the
connection state of self.client, and self._is_authenticated).
code_dispatched and password_needed are ghost fields recording the run
history needed to read off the abstract login state of the spec (a code
was dispatched to the phone on file; the provider asked for a second
factor); the Python process keeps this state on the Telegram side. -/
structure ClientState where
  session_string : String
  connected : Bool
  is_authenticated : Bool
  code_dispatched : Bool
  password_needed : Bool
  deriving Repr, DecidableEq

/-- The four abstract login states of the specification. -/
inductive SpecState
  | Unauthenticated
  | CodeSent
  | PasswordNeeded
  | Authenticated
  deriving Repr, DecidableEq

/-- Abstraction map from a concrete client state to the spec state
machine of section 4.1. -/
def sessionState (s : ClientState) : SpecState :=
  if s.is_authenticated then SpecState.Authenticated
  else if s.password_needed then SpecState.PasswordNeeded
  else if s.code_dispatched then SpecState.CodeSent
  else SpecState.Unauthenticated

/-- TelegramUserClient.ensure_connected: connect if not connected, then,
if the authenticated flag is not set, query authorization remotely; if
authorized, set the flag (an implicit auto-login from a persisted
session); otherwise raise the NotAuthenticated error. -/
def ensure_connected (p : Provider) (s : ClientState) :
    Except String Unit × ClientState × List RemoteCall :=
  let step1 : ClientState × List RemoteCall :=
    if s.connected then (s, []) else ({ s with connected := true }, [RemoteCall.connect])
  let s1 := step1.1
  let t1 := step1.2
  if s1.is_authenticated then (Except.ok (), s1, t1)
  else
    let t2 := t1 ++ [RemoteCall.is_user_authorized]
    if p.is_user_authorized then
      (Except.ok (), { s1 with is_authenticated := true }, t2)
    else
      (Except.error "Not authenticated. Please authenticate first.", s1, t2)

/-- Telethon iter_dialogs with a limit: the most recent dialogs, at most
limit of them. -/
def iter_dialogs (p : Provider) (limit : Int) : List Dialog :=
  p.dialogs.take limit.toNat

/-- Telethon iter_messages with limit and offset_id: with offset 0 the
newest messages, otherwise messages whose id is below the offset, at
most limit of them, newest first. -/
def iter_messages (p : Provider) (chat_id limit offset : Int) : List PMessage :=
  let hist := p.history chat_id
  let hist := if offset = 0 then hist else hist.filter (fun m => decide (m.id < offset))
  hist.take limit.toNat

/-- Projection of one dialog into the chat record of get_chats: the type
field is user, group or channel by the two boolean tests, and the
last_message is present exactly when the dialog has a message, its text
normalized by the Python or with the empty string. -/
def chat_info (d : Dialog) : ChatInfo :=
  { id := d.id
    name := d.name
    type := if d.is_user then "user" else if d.is_group then "group" else "channel"
    unread_count := d.unread_count
    last_message := d.message.map (fun m =>
      { id := m.id
        text := orEmpty m.text
        date := m.date
        from_id := m.from_user_id }) }

/-- TelegramUserClient.get_chats. -/
def get_chats (p : Provider) (s : ClientState) (limit : Int) :
    Except String (List ChatInfo) × ClientState × List RemoteCall :=
  match ensure_connected p s with
  | (Except.error e, s1, t) => (Except.error e, s1, t)
  | (Except.ok _, s1, t) =>
      (Except.ok ((iter_dialogs p limit).map chat_info), s1,
       t ++ [RemoteCall.iter_dialogs limit])

/-- The sender fields of a message record: set only when the sender is
present and an instance of User; the username key is added only when the
username is truthy. -/
def sender_fields (sender : Option Sender) :
    Option Int × Option String × Option String :=
  match sender with
  | some (Sender.user u) =>
      (some u.id,
       some ((orEmpty u.first_name ++ " " ++ orEmpty u.last_name).trim),
       match u.username with
       | some un => if un.isEmpty then none else some un
       | none => none)
  | _ => (none, none, none)

/-- Projection of one provider message into the record built by
get_messages. -/
def msg_record (m : PMessage) : MsgDict :=
  let sf := sender_fields m.sender
  { id := m.id
    text := orEmpty m.text
    date := m.date
    from_id := sf.1
    from_name := sf.2.1
    from_username := sf.2.2
    reply_to := m.reply_to_msg_id
    media := m.media.map (fun ty => { type := ty, has_media := true }) }

/-- TelegramUserClient.get_messages. -/
def get_messages (p : Provider) (s : ClientState) (chat_id limit offset : Int) :
    Except String (List MsgDict) × ClientState × List RemoteCall :=
  match ensure_connected p s with
  | (Except.error e, s1, t) => (Except.error e, s1, t)
  | (Except.ok _, s1, t) =>
      (Except.ok ((iter_messages p chat_id limit offset).map msg_record), s1,
       t ++ [RemoteCall.iter_messages chat_id limit offset])

/-- TelegramUserClient.send_message: ensure_connected, then one remote
send; no validation of the text happens before the remote call, and the
returned record copies the input chat_id. -/
def send_message (p : Provider) (s : ClientState) (chat_id : Int) (text : String)
    (reply_to : Option Int) :
    Except String SendResult × ClientState × List RemoteCall :=
  match ensure_connected p s with
  | (Except.error e, s1, t) => (Except.error e, s1, t)
  | (Except.ok _, s1, t) =>
      let t2 := t ++ [RemoteCall.send_message chat_id text reply_to]
      match p.send_outcome chat_id text reply_to with
      | Except.error e => (Except.error e, s1, t2)
      | Except.ok m =>
          (Except.ok { id := m.id, text := m.text, date := m.date, chat_id := chat_id },
           s1, t2)

/-- TelegramUserClient.disconnect: disconnect the underlying client only
when it is connected; otherwise do nothing.  The function is total, so
it never raises. -/
def disconnect (s : ClientState) : ClientState × List RemoteCall :=
  if s.connected then ({ s with connected := false }, [RemoteCall.disconnect])
  else (s, [])

/-- Result of the authenticate flow of main.py, one constructor per
distinct user-facing response text. -/
inductive AuthResult
  | code_sent (phone : String)
  | invalid_api_credentials
  | invalid_phone (phone : String)
  | rate_limited (seconds : Nat)
  | auth_ok (u : User) (session : String)
  | needs_password (phone code : String)
  | invalid_password
  | invalid_code (code : String)
  | code_expired
  | invalid_params
  deriving Repr, DecidableEq

/-- The authenticate function of main.py, for an initialized client.
Step 1 (truthy phone, no truthy code): connect and dispatch a code,
mapping the caught exception classes to their responses.  Step 2 (truthy
phone and code): connect and sign in; on success fetch the identity, set
the authenticated flag and return the saved session string; on
second-factor-needed either ask for the password or try it; the caught
code and flood errors map to their responses.  Otherwise: the invalid
parameters response. -/
def authenticate (p : Provider) (s : ClientState)
    (phone_number verification_code two_factor_password : Option String) :
    AuthResult × ClientState × List RemoteCall :=
  if truthy phone_number && !truthy verification_code then
    let ph := orEmpty phone_number
    let s1 := { s with connected := true }
    let t := [RemoteCall.connect, RemoteCall.send_code_request ph]
    match p.send_code_request ph with
    | SendCodeOutcome.ok =>
        (AuthResult.code_sent ph, { s1 with code_dispatched := true }, t)
    | SendCodeOutcome.apiIdInvalid => (AuthResult.invalid_api_credentials, s1, t)
    | SendCodeOutcome.phoneInvalid => (AuthResult.invalid_phone ph, s1, t)
    | SendCodeOutcome.floodWait n => (AuthResult.rate_limited n, s1, t)
  else if truthy phone_number && truthy verification_code then
    let ph := orEmpty phone_number
    let c := orEmpty verification_code
    let s1 := { s with connected := true }
    let t := [RemoteCall.connect, RemoteCall.sign_in ph c]
    match p.sign_in ph c with
    | SignInOutcome.ok =>
        (AuthResult.auth_ok p.me p.session_save,
         { s1 with is_authenticated := true }, t ++ [RemoteCall.get_me])
    | SignInOutcome.passwordNeeded =>
        if !truthy two_factor_password then
          (AuthResult.needs_password ph c, { s1 with password_needed := true }, t)
        else
          let t2 := t ++ [RemoteCall.sign_in_password]
          match p.sign_in_password (orEmpty two_factor_password) with
          | PasswordOutcome.ok =>
              (AuthResult.auth_ok p.me p.session_save,
               { s1 with is_authenticated := true, password_needed := true },
               t2 ++ [RemoteCall.get_me])
          | PasswordOutcome.passwordInvalid =>
              (AuthResult.invalid_password, { s1 with password_needed := true }, t2)
    | SignInOutcome.codeInvalid => (AuthResult.invalid_code c, s1, t)
    | SignInOutcome.codeExpired => (AuthResult.code_expired, s1, t)
    | SignInOutcome.floodWait n => (AuthResult.rate_limited n, s1, t)
  else
    (AuthResult.invalid_params, s, [])

/-- Status values returned by TelegramUserClient.start. -/
inductive StartStatus
  | authenticated
  | needs_phone
  | needs_code
  | needs_password
  | error
  deriving Repr, DecidableEq

/-- Result dictionary of TelegramUserClient.start: a status plus the
keys present in that branch of the code. -/
structure StartResult where
  status : StartStatus
  user : Option User := none
  session : Option String := none
  message : Option String := none
  deriving Repr, DecidableEq

/-- TelegramUserClient.start.  With a nonempty stored session string the
client connects and, if the provider reports the session authorized,
returns authenticated directly with the fetched identity; otherwise the
flow falls through to the phone and code steps.  Any exception raised by
send_code_request or sign_in that is not the second-factor signal lands
in the outer handler and yields the error status with the exception
text. -/
def start (p : Provider) (s : ClientState)
    (phone code password : Option String) :
    StartResult × ClientState × List RemoteCall :=
  let fast : Option StartResult × ClientState × List RemoteCall :=
    if !s.session_string.isEmpty then
      let s1 := { s with connected := true }
      if p.is_user_authorized then
        (some { status := StartStatus.authenticated, user := some p.me,
                session := some p.session_save },
         { s1 with is_authenticated := true },
         [RemoteCall.connect, RemoteCall.is_user_authorized, RemoteCall.get_me])
      else (none, s1, [RemoteCall.connect, RemoteCall.is_user_authorized])
    else (none, s, [])
  match fast with
  | (some r, s0, t0) => (r, s0, t0)
  | (none, s0, t0) =>
    if !truthy phone then
      ({ status := StartStatus.needs_phone,
         message := some "Phone number required for first-time setup" }, s0, t0)
    else
      let ph := orEmpty phone
      let s1 := { s0 with connected := true }
      let t1 := t0 ++ [RemoteCall.connect]
      if !truthy code then
        let t2 := t1 ++ [RemoteCall.send_code_request ph]
        match p.send_code_request ph with
        | SendCodeOutcome.ok =>
            ({ status := StartStatus.needs_code,
               message := some "Verification code sent to your phone. Please provide the code." },
             { s1 with code_dispatched := true }, t2)
        | SendCodeOutcome.apiIdInvalid =>
            ({ status := StartStatus.error, message := some "ApiIdInvalidError" }, s1, t2)
        | SendCodeOutcome.phoneInvalid =>
            ({ status := StartStatus.error, message := some "PhoneNumberInvalidError" }, s1, t2)
        | SendCodeOutcome.floodWait _ =>
            ({ status := StartStatus.error, message := some "FloodWaitError" }, s1, t2)
      else
        let c := orEmpty code
        let t2 := t1 ++ [RemoteCall.sign_in ph c]
        match p.sign_in ph c with
        | SignInOutcome.ok =>
            ({ status := StartStatus.authenticated, user := some p.me,
               session := some p.session_save },
             { s1 with is_authenticated := true }, t2 ++ [RemoteCall.get_me])
        | SignInOutcome.passwordNeeded =>
            if !truthy password then
              ({ status := StartStatus.needs_password,
                 message := some "Two-factor authentication enabled. Please provide your password." },
               { s1 with password_needed := true }, t2)
            else
              let t3 := t2 ++ [RemoteCall.sign_in_password]
              match p.sign_in_password (orEmpty password) with
              | PasswordOutcome.ok =>
                  ({ status := StartStatus.authenticated, user := some p.me,
                     session := some p.session_save },
                   { s1 with is_authenticated := true }, t3 ++ [RemoteCall.get_me])
              | PasswordOutcome.passwordInvalid =>
                  ({ status := StartStatus.error, message := some "PasswordHashInvalidError" },
                   { s1 with password_needed := true }, t3)
        | SignInOutcome.codeInvalid =>
            ({ status := StartStatus.error, message := some "PhoneCodeInvalidError" }, s1, t2)
        | SignInOutcome.codeExpired =>
            ({ status := StartStatus.error, message := some "PhoneCodeExpiredError" }, s1, t2)
        | SignInOutcome.floodWait _ =>
            ({ status := StartStatus.error, message := some "FloodWaitError" }, s1, t2)

/-- The list_chats arm of call_tool in main.py: the limit argument
defaults to 20 and is clamped with min against 100 before the client
call. -/
def call_list_chats (p : Provider) (s : ClientState) (limit : Option Int) :
    Except String (List ChatInfo) × ClientState × List RemoteCall :=
  get_chats p s (min (limit.getD 20) 100)

/-- The get_messages arm of call_tool in main.py: limit defaults to 10
and is clamped with min against 100, offset defaults to 0. -/
def call_get_messages (p : Provider) (s : ClientState) (chat_id : Int)
    (limit offset : Option Int) :
    Except String (List MsgDict) × ClientState × List RemoteCall :=
  get_messages p s chat_id (min (limit.getD 10) 100) (offset.getD 0)

/-- The send_message arm of call_tool in main.py: the arguments are
forwarded to the client unchanged, with no validation of the text. -/
def call_send_message (p : Provider) (s : ClientState) (chat_id : Int)
    (text : String) (reply_to : Option Int) :
    Except String SendResult × ClientState × List RemoteCall :=
  send_message p s chat_id text reply_to

/-- The remote calls ensure_connected performs when the authenticated
flag is down: a connect when not yet connected, then the authorization
probe. -/
def conn_probe_trace (s : ClientState) : List RemoteCall :=
  (if s.connected then [] else [RemoteCall.connect]) ++ [RemoteCall.is_user_authorized]

/-- Sample identity for concrete runs. -/
def sampleUser : User :=
  { id := 7, first_name := some "Ada", last_name := none,
    username := some "ada", phone := some "+15551234567" }

/-- Sample provider message with text present. -/
def msgHello : PMessage :=
  { id := 3, text := some "hello", date := "2026-01-01T00:00:00",
    from_user_id := some 7, sender := some (Sender.user sampleUser),
    reply_to_msg_id := none, media := none }

/-- Sample provider message with absent text and media present. -/
def msgNoText : PMessage :=
  { id := 2, text := none, date := "2026-01-01T00:00:01",
    from_user_id := none, sender := some Sender.other,
    reply_to_msg_id := some 1, media := some "MessageMediaPhoto" }

/-- Sample direct-chat dialog. -/
def dialogUser : Dialog :=
  { id := 42, name := "Ada", is_user := true, is_group := false,
    unread_count := 1, message := some msgHello }

/-- Sample broadcast dialog, neither user nor group, whose last message
has no text. -/
def dialogChannel : Dialog :=
  { id := 43, name := "News", is_user := false, is_group := false,
    unread_count := 0, message := some msgNoText }

/-- Sample environment whose session is not authorized: the code 12345
is the correct one, empty outgoing text is refused by the provider with
the Telethon message. -/
def sampleProvider : Provider :=
  { is_user_authorized := false
    me := sampleUser
    session_save := "1SESSIONSTRING"
    dialogs := [dialogUser, dialogChannel]
    history := fun _ => [msgHello, msgNoText]
    send_code_request := fun _ => SendCodeOutcome.ok
    sign_in := fun _ c => if c = "12345" then SignInOutcome.ok else SignInOutcome.codeInvalid
    sign_in_password := fun pw =>
      if pw = "hunter2" then PasswordOutcome.ok else PasswordOutcome.passwordInvalid
    send_outcome := fun _ text _ =>
      if text.isEmpty then Except.error "The message cannot be empty unless a file is provided"
      else Except.ok msgHello }

/-- Sample environment holding a valid authorized session. -/
def authProvider : Provider :=
  { sampleProvider with is_user_authorized := true }

/-- Freshly constructed client: no stored session, nothing connected. -/
def freshState : ClientState :=
  { session_string := "", connected := false, is_authenticated := false,
    code_dispatched := false, password_needed := false }

/-- Connected and authenticated client state. -/
def authState : ClientState :=
  { freshState with connected := true, is_authenticated := true }

/-- Client state in the CodeSent stage of the login flow. -/
def codeSentState : ClientState :=
  { freshState with connected := true, code_dispatched := true }

/-- Freshly constructed client that was given a stored session string. -/
def tokenState : ClientState :=
  { freshState with session_string := "1SESSIONSTRING" }

/-- The concrete message records a get_messages run over sampleProvider
produces. -/
def sampleMsgs : List MsgDict :=
  (iter_messages sampleProvider 42 10 0).map msg_record

/-- The concrete chat records a get_chats run over sampleProvider
produces. -/
def sampleChats : List ChatInfo :=
  (iter_dialogs sampleProvider 20).map chat_info

/-- Helper: the Python or-with-empty-string normalization agrees with
Option.getD of the empty string. -/
theorem orEmpty_eq_getD (o : Option String) : orEmpty o = o.getD "" := by
  cases o <;> rfl

/-- Helper: characterization of the CodeSent abstraction. -/
theorem sessionState_eq_codeSent (s : ClientState) :
    sessionState s = SpecState.CodeSent ↔
      s.is_authenticated = false ∧ s.password_needed = false ∧ s.code_dispatched = true := by
  cases h1 : s.is_authenticated <;> cases h2 : s.password_needed <;>
    cases h3 : s.code_dispatched <;> simp [sessionState, h1, h2, h3]

/-- Helper: characterization of the Unauthenticated abstraction. -/
theorem sessionState_eq_unauthenticated (s : ClientState) :
    sessionState s = SpecState.Unauthenticated ↔
      s.is_authenticated = false ∧ s.password_needed = false ∧ s.code_dispatched = false := by
  cases h1 : s.is_authenticated <;> cases h2 : s.password_needed <;>
    cases h3 : s.code_dispatched <;> simp [sessionState, h1, h2, h3]

/-- Helper: on an authenticated client, get_chats succeeds and returns
the projected dialogs. -/
theorem get_chats_ok (p : Provider) (s : ClientState)
    (hA : s.is_authenticated = true) (limit : Int) :
    (get_chats p s limit).1 = Except.ok ((iter_dialogs p limit).map chat_info) := by
  cases hc : s.connected <;> simp [get_chats, ensure_connected, hA, hc]

/-- Helper: on an authenticated client, get_messages succeeds and
returns the projected messages. -/
theorem get_messages_ok (p : Provider) (s : ClientState)
    (hA : s.is_authenticated = true) (chat_id limit offset : Int) :
    (get_messages p s chat_id limit offset).1 =
      Except.ok ((iter_messages p chat_id limit offset).map msg_record) := by
  cases hc : s.connected <;> simp [get_messages, ensure_connected, hA, hc]

/-- Helper: a successful get_messages result is exactly the projection
of the provider history slice. -/
theorem get_messages_shape (p : Provider) (s : ClientState) (chat_id limit offset : Int)
    (msgs : List MsgDict)
    (hm : (get_messages p s chat_id limit offset).1 = Except.ok msgs) :
    msgs = (iter_messages p chat_id limit offset).map msg_record := by
  unfold get_messages at hm
  split at hm
  · simp at hm
  · simp only [Except.ok.injEq] at hm
    exact hm.symm

/-- Helper: a successful get_chats result is exactly the projection of
the provider dialog slice. -/
theorem get_chats_shape (p : Provider) (s : ClientState) (limit : Int)
    (chats : List ChatInfo)
    (hc : (get_chats p s limit).1 = Except.ok chats) :
    chats = (iter_dialogs p limit).map chat_info := by
  unfold get_chats at hc
  split at hc
  · simp at hc
  · simp only [Except.ok.injEq] at hc
    exact hc.symm

/-- Claim C1, counterexample.  The claim says an operation called while
Unauthenticated makes no remote call.  On a concrete unauthenticated
client, get_chats performs the connect and authorization-probe remote
calls before failing, so the remote-call trace is nonempty. -/
theorem C1_no_remote_call_counterexample :
    (get_chats sampleProvider freshState 20).2.2 =
      [RemoteCall.connect, RemoteCall.is_user_authorized] ∧
    (get_chats sampleProvider freshState 20).2.2 ≠ [] ∧
    (get_chats sampleProvider freshState 20).1 =
      Except.error "Not authenticated. Please authenticate first." :=
  ⟨rfl, by decide, rfl⟩

/-- Claim C1, amended.  Any operation other than login called while the
session is Unauthenticated (the authenticated flag is down and the
provider does not authorize the session) fails with the NotAuthenticated
error; however the operation does perform remote calls first, namely a
connect when not connected and the authorization probe, which is itself
an auto-login attempt that would succeed were a valid persisted session
present.  No data-level remote call (dialog listing, message listing,
send) is performed. -/
theorem C1_unauthenticated_ops (p : Provider) (s : ClientState)
    (hA : s.is_authenticated = false) (hP : p.is_user_authorized = false)
    (limit chat_id offset : Int) (text : String) (reply_to : Option Int) :
    (get_chats p s limit).1 =
      Except.error "Not authenticated. Please authenticate first." ∧
    (get_messages p s chat_id limit offset).1 =
      Except.error "Not authenticated. Please authenticate first." ∧
    (send_message p s chat_id text reply_to).1 =
      Except.error "Not authenticated. Please authenticate first." ∧
    (get_chats p s limit).2.2 = conn_probe_trace s ∧
    (get_messages p s chat_id limit offset).2.2 = conn_probe_trace s ∧
    (send_message p s chat_id text reply_to).2.2 = conn_probe_trace s := by
  cases hc : s.connected <;>
    simp [get_chats, get_messages, send_message, ensure_connected,
      conn_probe_trace, hA, hP, hc]

/-- Claim C1, witness: the amended theorem applied to the concrete
unauthenticated client and environment. -/
theorem C1_unauthenticated_ops_witness :
    (get_chats sampleProvider freshState 20).1 =
      Except.error "Not authenticated. Please authenticate first." ∧
    (get_messages sampleProvider freshState 42 10 0).1 =
      Except.error "Not authenticated. Please authenticate first." ∧
    (send_message sampleProvider freshState 42 "hi" none).1 =
      Except.error "Not authenticated. Please authenticate first." ∧
    (get_chats sampleProvider freshState 20).2.2 = conn_probe_trace freshState ∧
    (get_messages sampleProvider freshState 42 10 0).2.2 = conn_probe_trace freshState ∧
    (send_message sampleProvider freshState 42 "hi" none).2.2 = conn_probe_trace freshState :=
  C1_unauthenticated_ops sampleProvider freshState rfl rfl 20 42 0 "hi" none

/-- Claim C2, counterexample.  The claim says send_message with empty
text fails before any remote call and the provider send is never
invoked.  On a concrete authenticated client, the remote-call trace of a
send with empty text consists exactly of the provider send with the
empty text, and the failure is the provider error text, not a pre-call
rejection. -/
theorem C2_empty_text_counterexample :
    (send_message sampleProvider authState 42 "" none).2.2 =
      [RemoteCall.send_message 42 "" none] ∧
    (send_message sampleProvider authState 42 "" none).1 =
      Except.error "The message cannot be empty unless a file is provided" :=
  ⟨rfl, rfl⟩

/-- Claim C2, amended.  The code performs no empty-text validation:
send_message on an authenticated client forwards the empty text to the
provider send unchanged (the trace ends with that remote call, preceded
only by a connect when not yet connected), and the outcome is whatever
the provider returns for the empty text. -/
theorem C2_empty_text_forwarded (p : Provider) (s : ClientState)
    (hA : s.is_authenticated = true) (chat_id : Int) (reply_to : Option Int) :
    (send_message p s chat_id "" reply_to).2.2 =
      (if s.connected then [] else [RemoteCall.connect]) ++
        [RemoteCall.send_message chat_id "" reply_to] ∧
    (send_message p s chat_id "" reply_to).1 =
      (match p.send_outcome chat_id "" reply_to with
       | Except.error e => Except.error e
       | Except.ok m =>
           Except.ok { id := m.id, text := m.text, date := m.date, chat_id := chat_id }) := by
  cases hc : s.connected <;> cases ho : p.send_outcome chat_id "" reply_to <;>
    simp [send_message, ensure_connected, hA, hc, ho]

/-- Claim C2, witness: the amended theorem applied to a concrete
authenticated client, another chat and a reply id. -/
theorem C2_empty_text_forwarded_witness :
    (send_message sampleProvider authState 7 "" (some 3)).2.2 =
      (if authState.connected then [] else [RemoteCall.connect]) ++
        [RemoteCall.send_message 7 "" (some 3)] ∧
    (send_message sampleProvider authState 7 "" (some 3)).1 =
      (match sampleProvider.send_outcome 7 "" (some 3) with
       | Except.error e => Except.error e
       | Except.ok m =>
           Except.ok { id := m.id, text := m.text, date := m.date, chat_id := 7 }) :=
  C2_empty_text_forwarded sampleProvider authState rfl 7 (some 3)

/-- Claim C3.  On an authenticated client, the call_tool layer clamps
the limit with min against 100: for limit above 100 both operations run
with effective limit 100, both complete without error, and the returned
sequences have length at most 100, and at most the requested limit when
that limit is at most 100. -/
theorem C3_limit_clamp (p : Provider) (s : ClientState)
    (hA : s.is_authenticated = true) (limit chat_id offset : Int) :
    (100 < limit →
      call_list_chats p s (some limit) = get_chats p s 100 ∧
      call_get_messages p s chat_id (some limit) (some offset) =
        get_messages p s chat_id 100 offset) ∧
    (∃ cs, (call_list_chats p s (some limit)).1 = Except.ok cs ∧
      cs.length ≤ 100 ∧ (limit ≤ 100 → cs.length ≤ limit.toNat)) ∧
    (∃ ms, (call_get_messages p s chat_id (some limit) (some offset)).1 = Except.ok ms ∧
      ms.length ≤ 100 ∧ (limit ≤ 100 → ms.length ≤ limit.toNat)) := by
  have hlen1 : ((iter_dialogs p (min limit 100)).map chat_info).length ≤
      (min limit 100).toNat := by
    simp only [iter_dialogs, List.length_map]
    exact (List.length_take_le _ _)
  have hlen2 : ((iter_messages p chat_id (min limit 100) offset).map msg_record).length ≤
      (min limit 100).toNat := by
    simp only [iter_messages, List.length_map]
    exact (List.length_take_le _ _)
  have hminle : (min limit 100).toNat ≤ 100 := by
    have : min limit 100 ≤ (100 : Int) := min_le_right _ _
    omega
  have hminlt : limit ≤ 100 → (min limit 100).toNat ≤ limit.toNat := by
    intro h
    have : min limit 100 = limit := min_eq_left h
    omega
  refine ⟨?_, ?_, ?_⟩
  · intro hgt
    have hm : min limit 100 = 100 := min_eq_right hgt.le
    constructor
    · simp [call_list_chats, hm]
    · simp [call_get_messages, hm]
  · refine ⟨(iter_dialogs p (min limit 100)).map chat_info, ?_, ?_, ?_⟩
    · simpa [call_list_chats] using get_chats_ok p s hA (min limit 100)
    · exact hlen1.trans hminle
    · intro h; exact hlen1.trans (hminlt h)
  · refine ⟨(iter_messages p chat_id (min limit 100) offset).map msg_record, ?_, ?_, ?_⟩
    · simpa [call_get_messages] using get_messages_ok p s hA chat_id (min limit 100) offset
    · exact hlen2.trans hminle
    · intro h; exact hlen2.trans (hminlt h)

/-- Claim C3, witness: the clamp theorem applied to the concrete
authenticated client with a limit of 500. -/
theorem C3_limit_clamp_witness :
    ((100 : Int) < 500 →
      call_list_chats sampleProvider authState (some 500) =
        get_chats sampleProvider authState 100 ∧
      call_get_messages sampleProvider authState 42 (some 500) (some 0) =
        get_messages sampleProvider authState 42 100 0) ∧
    (∃ cs, (call_list_chats sampleProvider authState (some 500)).1 = Except.ok cs ∧
      cs.length ≤ 100 ∧ ((500 : Int) ≤ 100 → cs.length ≤ (500 : Int).toNat)) ∧
    (∃ ms, (call_get_messages sampleProvider authState 42 (some 500) (some 0)).1 =
        Except.ok ms ∧
      ms.length ≤ 100 ∧ ((500 : Int) ≤ 100 → ms.length ≤ (500 : Int).toNat)) :=
  C3_limit_clamp sampleProvider authState rfl 500 42 0

/-- Claim C4.  A login with a truthy phone and a code the provider
rejects as invalid returns the invalid-code response, and the abstract
session state remains CodeSent: it is neither PasswordNeeded nor
Authenticated, and the authenticated flag stays false. -/
theorem C4_wrong_code_keeps_code_sent (p : Provider) (s : ClientState) (ph c : String)
    (hph : ph.isEmpty = false) (hcne : c.isEmpty = false)
    (hstate : sessionState s = SpecState.CodeSent)
    (hwrong : p.sign_in ph c = SignInOutcome.codeInvalid)
    (pw : Option String) :
    (authenticate p s (some ph) (some c) pw).1 = AuthResult.invalid_code c ∧
    sessionState (authenticate p s (some ph) (some c) pw).2.1 = SpecState.CodeSent ∧
    (authenticate p s (some ph) (some c) pw).2.1.is_authenticated = false := by
  obtain ⟨h1, h2, h3⟩ := (sessionState_eq_codeSent s).mp hstate
  simp [authenticate, truthy, orEmpty, hph, hcne, hwrong, sessionState, h1, h2, h3]

/-- Claim C4, witness: the theorem applied to the concrete client in the
CodeSent stage with the wrong code 00000. -/
theorem C4_wrong_code_keeps_code_sent_witness :
    (authenticate sampleProvider codeSentState
        (some "+15551234567") (some "00000") none).1 = AuthResult.invalid_code "00000" ∧
    sessionState (authenticate sampleProvider codeSentState
        (some "+15551234567") (some "00000") none).2.1 = SpecState.CodeSent ∧
    (authenticate sampleProvider codeSentState
        (some "+15551234567") (some "00000") none).2.1.is_authenticated = false :=
  C4_wrong_code_keeps_code_sent sampleProvider codeSentState "+15551234567" "00000"
    rfl rfl rfl rfl none

/-- Claim C5.  From an Unauthenticated client, a login with a truthy
phone and no code dispatches a one-time code (the trace is the connect
followed by the code request) and returns the code-sent response, the
abstract state becomes CodeSent, and an immediately repeated identical
call behaves the same: same response, same remote calls, state still
CodeSent. -/
theorem C5_phone_only_idempotent (p : Provider) (s : ClientState) (ph : String)
    (hph : ph.isEmpty = false)
    (hstate : sessionState s = SpecState.Unauthenticated)
    (hok : p.send_code_request ph = SendCodeOutcome.ok) :
    (authenticate p s (some ph) none none).1 = AuthResult.code_sent ph ∧
    (authenticate p s (some ph) none none).2.2 =
      [RemoteCall.connect, RemoteCall.send_code_request ph] ∧
    sessionState (authenticate p s (some ph) none none).2.1 = SpecState.CodeSent ∧
    (authenticate p (authenticate p s (some ph) none none).2.1 (some ph) none none).1 =
      AuthResult.code_sent ph ∧
    (authenticate p (authenticate p s (some ph) none none).2.1 (some ph) none none).2.2 =
      [RemoteCall.connect, RemoteCall.send_code_request ph] ∧
    sessionState
      (authenticate p (authenticate p s (some ph) none none).2.1 (some ph) none none).2.1 =
      SpecState.CodeSent := by
  obtain ⟨h1, h2, h3⟩ := (sessionState_eq_unauthenticated s).mp hstate
  simp [authenticate, truthy, orEmpty, hph, hok, sessionState, h1, h2, h3]

/-- Claim C5, witness: the theorem applied to the fresh client and the
concrete environment. -/
theorem C5_phone_only_idempotent_witness :
    (authenticate sampleProvider freshState (some "+15551234567") none none).1 =
      AuthResult.code_sent "+15551234567" ∧
    (authenticate sampleProvider freshState (some "+15551234567") none none).2.2 =
      [RemoteCall.connect, RemoteCall.send_code_request "+15551234567"] ∧
    sessionState
      (authenticate sampleProvider freshState (some "+15551234567") none none).2.1 =
      SpecState.CodeSent ∧
    (authenticate sampleProvider
        (authenticate sampleProvider freshState (some "+15551234567") none none).2.1
        (some "+15551234567") none none).1 = AuthResult.code_sent "+15551234567" ∧
    (authenticate sampleProvider
        (authenticate sampleProvider freshState (some "+15551234567") none none).2.1
        (some "+15551234567") none none).2.2 =
      [RemoteCall.connect, RemoteCall.send_code_request "+15551234567"] ∧
    sessionState (authenticate sampleProvider
        (authenticate sampleProvider freshState (some "+15551234567") none none).2.1
        (some "+15551234567") none none).2.1 = SpecState.CodeSent :=
  C5_phone_only_idempotent sampleProvider freshState "+15551234567" rfl rfl rfl

/-- Claim C6.  With a nonempty stored session string that the provider
accepts as authorized, start transitions directly to Authenticated,
fetches the remote identity and returns it together with the saved
session, and this holds for every combination of phone, code and
password arguments, in particular when all are absent. -/
theorem C6_persisted_token_login (p : Provider) (s : ClientState)
    (htok : s.session_string.isEmpty = false)
    (hauth : p.is_user_authorized = true)
    (phone code password : Option String) :
    (start p s phone code password).1 =
      { status := StartStatus.authenticated, user := some p.me,
        session := some p.session_save } ∧
    (start p s phone code password).2.1.is_authenticated = true ∧
    sessionState (start p s phone code password).2.1 = SpecState.Authenticated ∧
    (start p s phone code password).2.2 =
      [RemoteCall.connect, RemoteCall.is_user_authorized, RemoteCall.get_me] := by
  simp [start, htok, hauth, sessionState]

/-- Claim C6, witness: the theorem applied to the client constructed
with the stored session and the authorized environment, with no phone,
code or password. -/
theorem C6_persisted_token_login_witness :
    (start authProvider tokenState none none none).1 =
      { status := StartStatus.authenticated, user := some authProvider.me,
        session := some authProvider.session_save } ∧
    (start authProvider tokenState none none none).2.1.is_authenticated = true ∧
    sessionState (start authProvider tokenState none none none).2.1 =
      SpecState.Authenticated ∧
    (start authProvider tokenState none none none).2.2 =
      [RemoteCall.connect, RemoteCall.is_user_authorized, RemoteCall.get_me] :=
  C6_persisted_token_login authProvider tokenState rfl rfl none none none

/-- Claim C7.  Whenever send_message succeeds, the chat_id field of the
returned record equals the input chat_id. -/
theorem C7_send_returns_input_chat_id (p : Provider) (s : ClientState)
    (chat_id : Int) (text : String) (reply_to : Option Int) (r : SendResult)
    (h : (send_message p s chat_id text reply_to).1 = Except.ok r) :
    r.chat_id = chat_id := by
  unfold send_message at h
  split at h
  · simp at h
  · split at h
    · simp at h
    · simp only [Except.ok.injEq] at h
      subst h
      rfl

/-- Claim C7, witness: the theorem applied to a concrete successful
send. -/
theorem C7_send_returns_input_chat_id_witness :
    ({ id := msgHello.id, text := msgHello.text, date := msgHello.date,
       chat_id := 42 } : SendResult).chat_id = 42 :=
  C7_send_returns_input_chat_id sampleProvider authState 42 "hello" none _ rfl

/-- Claim C8.  Disconnect is safe in every client state: it is a total
function, so it never raises; after one call the client is disconnected,
and a second call is a no-op, changing nothing and making no remote
call. -/
theorem C8_disconnect_idempotent (s : ClientState) :
    (disconnect s).1.connected = false ∧
    disconnect (disconnect s).1 = ((disconnect s).1, []) := by
  cases hc : s.connected <;> simp [disconnect, hc]

/-- Claim C9.  Every message record a successful get_messages run
returns, and every last_message embedded in a chat record a successful
get_chats run returns, has a string text field derived from the optional
provider text by replacing an absent text with the empty string. -/
theorem C9_message_text_never_null (p : Provider) (s : ClientState)
    (chat_id limit offset climit : Int) (msgs : List MsgDict) (chats : List ChatInfo)
    (hm : (get_messages p s chat_id limit offset).1 = Except.ok msgs)
    (hc : (get_chats p s climit).1 = Except.ok chats) :
    (∀ m ∈ msgs, ∃ pm, pm ∈ iter_messages p chat_id limit offset ∧
      m = msg_record pm ∧ m.text = pm.text.getD "") ∧
    (∀ c ∈ chats, ∀ lm, c.last_message = some lm →
      ∃ d pm, d ∈ iter_dialogs p climit ∧ c = chat_info d ∧ d.message = some pm ∧
        lm.text = pm.text.getD "") := by
  constructor
  · intro m hmem
    rw [get_messages_shape p s chat_id limit offset msgs hm] at hmem
    obtain ⟨pm, hpm, hEq⟩ := List.mem_map.mp hmem
    exact ⟨pm, hpm, hEq.symm, by rw [← hEq]; exact orEmpty_eq_getD pm.text⟩
  · intro c hmem lm hlm
    rw [get_chats_shape p s climit chats hc] at hmem
    obtain ⟨d, hd, hEq⟩ := List.mem_map.mp hmem
    subst hEq
    simp only [chat_info, Option.map_eq_some'] at hlm
    obtain ⟨pm, hpm, hval⟩ := hlm
    refine ⟨d, pm, hd, rfl, hpm, ?_⟩
    rw [← hval]
    exact orEmpty_eq_getD pm.text

/-- Claim C9, witness: the theorem applied to the concrete authenticated
run whose history holds one message with text and one without. -/
theorem C9_message_text_never_null_witness :
    (∀ m ∈ sampleMsgs, ∃ pm, pm ∈ iter_messages sampleProvider 42 10 0 ∧
      m = msg_record pm ∧ m.text = pm.text.getD "") ∧
    (∀ c ∈ sampleChats, ∀ lm, c.last_message = some lm →
      ∃ d pm, d ∈ iter_dialogs sampleProvider 20 ∧ c = chat_info d ∧
        d.message = some pm ∧ lm.text = pm.text.getD "") :=
  C9_message_text_never_null sampleProvider authState 42 10 0 20
    sampleMsgs sampleChats rfl rfl

/-- Claim C10.  Every chat record a successful get_chats run returns
carries exactly one type among user, group and channel (the three names
being pairwise distinct, a single string value is exactly one of them),
the classification is total, and a dialog that is neither a user nor a
group is always classified channel. -/
theorem C10_chat_kind_total (p : Provider) (s : ClientState) (limit : Int)
    (chats : List ChatInfo)
    (hc : (get_chats p s limit).1 = Except.ok chats) :
    (∀ c ∈ chats, c.type = "user" ∨ c.type = "group" ∨ c.type = "channel") ∧
    (∀ d : Dialog, d.is_user = true → (chat_info d).type = "user") ∧
    (∀ d : Dialog, d.is_user = false → d.is_group = true → (chat_info d).type = "group") ∧
    (∀ d : Dialog, d.is_user = false → d.is_group = false →
      (chat_info d).type = "channel") ∧
    (("user" : String) ≠ "group" ∧ ("user" : String) ≠ "channel" ∧
      ("group" : String) ≠ "channel") := by
  refine ⟨?_, ?_, ?_, ?_, by decide, by decide, by decide⟩
  · intro c hmem
    rw [get_chats_shape p s limit chats hc] at hmem
    obtain ⟨d, _, hEq⟩ := List.mem_map.mp hmem
    subst hEq
    cases hu : d.is_user <;> cases hg : d.is_group <;> simp [chat_info, hu, hg]
  · intro d hu
    simp [chat_info, hu]
  · intro d hu hg
    simp [chat_info, hu, hg]
  · intro d hu hg
    simp [chat_info, hu, hg]

/-- Claim C10, witness: the theorem applied to the concrete run whose
dialogs hold one user chat and one channel. -/
theorem C10_chat_kind_total_witness :
    (∀ c ∈ sampleChats, c.type = "user" ∨ c.type = "group" ∨ c.type = "channel") ∧
    (∀ d : Dialog, d.is_user = true → (chat_info d).type = "user") ∧
    (∀ d : Dialog, d.is_user = false → d.is_group = true → (chat_info d).type = "group") ∧
    (∀ d : Dialog, d.is_user = false → d.is_group = false →
      (chat_info d).type = "channel") ∧
    (("user" : String) ≠ "group" ∧ ("user" : String) ≠ "channel" ∧
      ("group" : String) ≠ "channel") :=
  C10_chat_kind_total sampleProvider authState 20 sampleChats rfl

end TelegramMCP
